import Mathlib

/-!
Shallow embedding of the CodeBuild-to-CodePipeline action binding logic of
`packages/@aws-cdk/aws-codebuild/lib/pipeline-actions.ts`.

The embedding models:
* the data carried by an action (`ActionState`): its `configuration` mapping,
  its bound input and output artifact lists, and the optional primary
  `outputArtifact` property;
* the side effects performed during construction as an ordered trace of
  `Event`s (IAM policy statement appended to the pipeline role, bucket
  read / read-write grants to the project role, artifact-list mutations);
* the two constructors `PipelineBuildAction` and `PipelineTestAction` as
  functions producing the event trace together with either the finished
  action state or a construction-time error.

Parts of the behaviour live in the external `@aws-cdk/aws-codepipeline-api`
package (the `BuildAction` / `TestAction` base-class constructors, the
`addInputArtifact` / `addOutputArtifact` mutators and the artifact-bounds
validation); those definitions are marked `Modelled from the spec:` and
follow the specification text.
-/

/-- An artifact: a named unit of data flowing between pipeline stages. -/
structure Artifact where
  name : String
deriving DecidableEq, Repr

/-- The provider-specific `configuration` mapping of an action.  The source
builds it with `ProjectName` set and may later gain a `PrimarySource` key. -/
structure Configuration where
  ProjectName : String
  PrimarySource : Option String
deriving DecidableEq, Repr

/-- The mutable data of a pipeline action relevant to this module:
`configuration`, the `_inputArtifacts` and `_outputArtifacts` lists, and the
optional primary `outputArtifact` property of a test action. -/
structure ActionState where
  configuration : Configuration
  inputArtifacts : List Artifact
  outputArtifacts : List Artifact
  outputArtifact : Option Artifact
deriving DecidableEq, Repr

/-- The `ProjectRef` collaborator: the build project's name, ARN and role. -/
structure ProjectRef where
  projectName : String
  projectArn : String
  role : String
deriving DecidableEq, Repr

/-- `artifactBounds`: static min/max input and output artifact counts. -/
structure ArtifactBounds where
  minInputs : Nat
  maxInputs : Nat
  minOutputs : Nat
  maxOutputs : Nat
deriving DecidableEq, Repr

/-- The bounds both constructors pass to their base class:
`{ minInputs: 1, maxInputs: 5, minOutputs: 0, maxOutputs: 5 }`. -/
def codeBuildArtifactBounds : ArtifactBounds :=
  { minInputs := 1, maxInputs := 5, minOutputs := 0, maxOutputs := 5 }

/-- `CommonCodeBuildActionProps`: the optional list of additional input
artifacts and the optional list of additional output artifact names. -/
structure CommonCodeBuildActionProps where
  additionalInputArtifacts : Option (List Artifact)
  additionalOutputArtifactNames : Option (List String)
deriving DecidableEq, Repr

/-- `PipelineBuildActionProps`: build-action construction properties. -/
structure PipelineBuildActionProps extends CommonCodeBuildActionProps where
  inputArtifact : Option Artifact
  outputArtifactName : Option String
  project : ProjectRef
deriving DecidableEq, Repr

/-- `PipelineTestActionProps`: test-action construction properties. -/
structure PipelineTestActionProps extends CommonCodeBuildActionProps where
  inputArtifact : Option Artifact
  outputArtifactName : Option String
  project : ProjectRef
deriving DecidableEq, Repr

/-- An observable side effect performed during action construction, in
chronological order of occurrence. -/
inductive Event where
  /-- `stage.pipeline.role.addToPolicy(...)`: a policy statement with the
  given resource and the given action names appended to the pipeline role. -/
  | addToPolicy (resource : String) (actions : List String)
  /-- `stage.pipeline.grantBucketRead(role)`. -/
  | grantBucketRead (role : String)
  /-- `stage.pipeline.grantBucketReadWrite(role)`. -/
  | grantBucketReadWrite (role : String)
  /-- `action.configuration.PrimarySource = name`. -/
  | setPrimarySource (name : String)
  /-- `addInputArtifact(artifact)` for an additional input artifact. -/
  | addInput (artifact : Artifact)
  /-- `addOutputArtifact(name)` for an additional output artifact name. -/
  | addOutput (name : String)
deriving DecidableEq, Repr

/-- The three control-plane action names granted to the pipeline role. -/
def codeBuildPolicyActions : List String :=
  ["codebuild:BatchGetBuilds", "codebuild:StartBuild", "codebuild:StopBuild"]

/-- `setCodeBuildNeededPermissions` of the source: append one policy
statement (the three control-plane actions, resource = the project ARN) to
the pipeline role, then grant the project role read-write access to the
pipeline bucket when `needsPipelineBucketWrite`, read-only access
otherwise.  The emitted event trace is returned in program order. -/
def setCodeBuildNeededPermissions (project : ProjectRef)
    (needsPipelineBucketWrite : Bool) : List Event :=
  [Event.addToPolicy project.projectArn codeBuildPolicyActions] ++
    (if needsPipelineBucketWrite then [Event.grantBucketReadWrite project.role]
     else [Event.grantBucketRead project.role])

/-- Modelled from the spec: `addInputArtifact` of the external codepipeline
action base class (not under this repository's sources): appends the
artifact to the action's input-artifact list, in call order. -/
def addInputArtifact (action : ActionState) (artifact : Artifact) : ActionState :=
  { action with inputArtifacts := action.inputArtifacts ++ [artifact] }

/-- Modelled from the spec: `addOutputArtifact` of the external codepipeline
action base class (not under this repository's sources): appends an
artifact with the given name to the action's output-artifact list. -/
def addOutputArtifact (action : ActionState) (name : String) : ActionState :=
  { action with outputArtifacts := action.outputArtifacts ++ [Artifact.mk name] }

/-- `handleAdditionalInputOutputArtifacts` of the source.  When the list of
additional input artifacts is non-empty it first reads
`action._inputArtifacts[0].name` — an access that is only well defined when
at least one input artifact is already bound; `none` models the failing
out-of-bounds access — stores it as the configuration's `PrimarySource`,
and appends each additional input artifact in declaration order.  Then it
appends an output artifact for each additional output artifact name, in
declaration order.  The returned event list records the mutations in
program order. -/
def handleAdditionalInputOutputArtifacts (props : CommonCodeBuildActionProps)
    (action : ActionState) : Option (ActionState × List Event) :=
  let additionalInputs := props.additionalInputArtifacts.getD []
  let additionalOutputNames := props.additionalOutputArtifactNames.getD []
  let step1 : Option (ActionState × List Event) :=
    if additionalInputs.length > 0 then
      match action.inputArtifacts with
      | [] => none
      | first :: _ =>
        let action := { action with configuration :=
          { action.configuration with PrimarySource := some first.name } }
        some (additionalInputs.foldl addInputArtifact action,
          Event.setPrimarySource first.name :: additionalInputs.map Event.addInput)
    else some (action, [])
  match step1 with
  | none => none
  | some (action, events) =>
    some (additionalOutputNames.foldl addOutputArtifact action,
      events ++ additionalOutputNames.map Event.addOutput)

/-- `findOutputArtifact` of the source: linear scan for the first artifact
whose name equals the given name exactly; raises an error carrying the
missing name when there is none. -/
def findOutputArtifact (artifacts : List Artifact) (name : String) :
    Except String Artifact :=
  match artifacts.find? (fun artifact => artifact.name == name) with
  | some ret => Except.ok ret
  | none => Except.error ("Could not find output artifact with name " ++ name)

/-- JavaScript truthiness of an optional string (`!!s` and `if (s)`):
`undefined` and the empty string are falsy, every other string is truthy. -/
def strTruthy : Option String → Bool
  | none => false
  | some s => s != ""

/-- Modelled from the spec: artifact-bounds validation of the external
codepipeline action base class (not under this repository's sources):
construction succeeds iff the resolved input count and output count each
lie within the declared bounds; a violation is a fatal construction-time
BoundsViolation raised after both artifact lists are finalized. -/
def validateArtifactBounds (bounds : ArtifactBounds)
    (inputCount outputCount : Nat) : Bool :=
  decide (bounds.minInputs ≤ inputCount) && decide (inputCount ≤ bounds.maxInputs) &&
    decide (bounds.minOutputs ≤ outputCount) && decide (outputCount ≤ bounds.maxOutputs)

/-- A fatal construction-time error. -/
inductive ConstructError where
  /-- a resolved artifact count falls outside the declared bounds. -/
  | boundsViolation
  /-- reading a property of an element that is out of bounds. -/
  | undefinedAccess
deriving DecidableEq, Repr

/-- Modelled from the spec: the external `BuildAction` base-class
constructor (not under this repository's sources).  It records the
`ProjectName` configuration entry, binds the primary input artifact (the
supplied one, or the externally resolved upstream default), and binds the
primary output artifact named by `outputArtifactName`, or by an
auto-generated name when none is supplied. -/
def buildActionBase (props : PipelineBuildActionProps)
    (defaultInputArtifact : Artifact) (autoGeneratedName : String) : ActionState :=
  let outputName :=
    if strTruthy props.outputArtifactName then props.outputArtifactName.getD ""
    else autoGeneratedName
  { configuration := { ProjectName := props.project.projectName, PrimarySource := none },
    inputArtifacts := [props.inputArtifact.getD defaultInputArtifact],
    outputArtifacts := [Artifact.mk outputName],
    outputArtifact := some (Artifact.mk outputName) }

/-- Modelled from the spec: the external `TestAction` base-class
constructor (not under this repository's sources).  It records the
`ProjectName` configuration entry, binds the primary input artifact, and
binds a primary output artifact only when an output artifact name is
supplied; otherwise the action has no primary output. -/
def testActionBase (props : PipelineTestActionProps)
    (defaultInputArtifact : Artifact) : ActionState :=
  let primaryOutput : Option Artifact :=
    if strTruthy props.outputArtifactName then
      some (Artifact.mk (props.outputArtifactName.getD "")) else none
  { configuration := { ProjectName := props.project.projectName, PrimarySource := none },
    inputArtifacts := [props.inputArtifact.getD defaultInputArtifact],
    outputArtifacts := primaryOutput.toList,
    outputArtifact := primaryOutput }

/-- The `PipelineBuildAction` constructor: base-class construction, then
`setCodeBuildNeededPermissions(stage, project, true)`, then
`handleAdditionalInputOutputArtifacts`, then (modelled from the spec, since
the validation lives in the external base class) artifact-bounds validation
of the finalized lists against `codeBuildArtifactBounds`.  Returns the event
trace in chronological order, together with the finished action or the
construction-time error. -/
def pipelineBuildActionConstruct (props : PipelineBuildActionProps)
    (defaultInputArtifact : Artifact) (autoGeneratedName : String) :
    List Event × Except ConstructError ActionState :=
  let action := buildActionBase props defaultInputArtifact autoGeneratedName
  let grantEvents := setCodeBuildNeededPermissions props.project true
  match handleAdditionalInputOutputArtifacts props.toCommonCodeBuildActionProps action with
  | none => (grantEvents, Except.error ConstructError.undefinedAccess)
  | some (action, bindEvents) =>
    if validateArtifactBounds codeBuildArtifactBounds
        action.inputArtifacts.length action.outputArtifacts.length
    then (grantEvents ++ bindEvents, Except.ok action)
    else (grantEvents ++ bindEvents, Except.error ConstructError.boundsViolation)

/-- The `PipelineTestAction` constructor: base-class construction, then
`setCodeBuildNeededPermissions(stage, project, !!props.outputArtifactName)`,
then `handleAdditionalInputOutputArtifacts`, then (modelled from the spec)
artifact-bounds validation of the finalized lists. -/
def pipelineTestActionConstruct (props : PipelineTestActionProps)
    (defaultInputArtifact : Artifact) :
    List Event × Except ConstructError ActionState :=
  let action := testActionBase props defaultInputArtifact
  let grantEvents := setCodeBuildNeededPermissions props.project
    (strTruthy props.outputArtifactName)
  match handleAdditionalInputOutputArtifacts props.toCommonCodeBuildActionProps action with
  | none => (grantEvents, Except.error ConstructError.undefinedAccess)
  | some (action, bindEvents) =>
    if validateArtifactBounds codeBuildArtifactBounds
        action.inputArtifacts.length action.outputArtifacts.length
    then (grantEvents ++ bindEvents, Except.ok action)
    else (grantEvents ++ bindEvents, Except.error ConstructError.boundsViolation)

namespace PipelineBuildAction

/-- `PipelineBuildAction.additionalOutputArtifacts`:
`this._outputArtifacts.slice(1)`. -/
def additionalOutputArtifacts (action : ActionState) : List Artifact :=
  action.outputArtifacts.drop 1

/-- `PipelineBuildAction.additionalOutputArtifact(name)`:
`findOutputArtifact(this.additionalOutputArtifacts(), name)`. -/
def additionalOutputArtifact (action : ActionState) (name : String) :
    Except String Artifact :=
  findOutputArtifact (additionalOutputArtifacts action) name

end PipelineBuildAction

namespace PipelineTestAction

/-- `PipelineTestAction.additionalOutputArtifacts`: all output artifacts
when `outputArtifact` is undefined, else `this._outputArtifacts.slice(1)`. -/
def additionalOutputArtifacts (action : ActionState) : List Artifact :=
  match action.outputArtifact with
  | none => action.outputArtifacts
  | some _ => action.outputArtifacts.drop 1

/-- `PipelineTestAction.additionalOutputArtifact(name)`:
`findOutputArtifact(this.additionalOutputArtifacts(), name)`. -/
def additionalOutputArtifact (action : ActionState) (name : String) :
    Except String Artifact :=
  findOutputArtifact (additionalOutputArtifacts action) name

end PipelineTestAction

/-- An event is a permission grant (policy statement or bucket grant). -/
def isGrantEvent : Event → Bool
  | Event.addToPolicy _ _ => true
  | Event.grantBucketRead _ => true
  | Event.grantBucketReadWrite _ => true
  | _ => false

/-- An event is an artifact-binding mutation. -/
def isBindingEvent (e : Event) : Bool := !isGrantEvent e

/-- An event is the appending of a policy statement to the pipeline role. -/
def isPipelinePolicyEvent : Event → Bool
  | Event.addToPolicy _ _ => true
  | _ => false

/-- The output-artifact list of a successful construction ( `[]` on error). -/
def resultOutputs : Except ConstructError ActionState → List Artifact
  | Except.ok action => action.outputArtifacts
  | Except.error _ => []

/-- Whether an `Except` result is a success. -/
def isOk {ε α : Type} : Except ε α → Bool
  | Except.ok _ => true
  | Except.error _ => false

/-- The event list emitted by `handleAdditionalInputOutputArtifacts` when the
first bound input artifact is named `firstName`. -/
def bindEventsOf (props : CommonCodeBuildActionProps) (firstName : String) :
    List Event :=
  (if (props.additionalInputArtifacts.getD []).length > 0 then
    Event.setPrimarySource firstName ::
      (props.additionalInputArtifacts.getD []).map Event.addInput
  else []) ++ (props.additionalOutputArtifactNames.getD []).map Event.addOutput

/-- The resolved primary input artifact of a build action. -/
def buildPrimaryInput (props : PipelineBuildActionProps) (defaultInputArtifact : Artifact) :
    Artifact :=
  props.inputArtifact.getD defaultInputArtifact

/-- The resolved primary output artifact name of a build action. -/
def buildPrimaryOutputName (props : PipelineBuildActionProps) (autoGeneratedName : String) :
    String :=
  if strTruthy props.outputArtifactName then props.outputArtifactName.getD ""
  else autoGeneratedName

/-- The fully bound state of a build action, before bounds validation. -/
def buildFinalState (props : PipelineBuildActionProps) (defaultInputArtifact : Artifact)
    (autoGeneratedName : String) : ActionState :=
  { configuration :=
      { ProjectName := props.project.projectName,
        PrimarySource := if (props.additionalInputArtifacts.getD []).length > 0
          then some (buildPrimaryInput props defaultInputArtifact).name else none },
    inputArtifacts := buildPrimaryInput props defaultInputArtifact ::
      props.additionalInputArtifacts.getD [],
    outputArtifacts := Artifact.mk (buildPrimaryOutputName props autoGeneratedName) ::
      (props.additionalOutputArtifactNames.getD []).map Artifact.mk,
    outputArtifact := some (Artifact.mk (buildPrimaryOutputName props autoGeneratedName)) }

/-- The resolved primary output artifact of a test action. -/
def testPrimaryOutput (props : PipelineTestActionProps) : Option Artifact :=
  if strTruthy props.outputArtifactName then
    some (Artifact.mk (props.outputArtifactName.getD "")) else none

/-- The fully bound state of a test action, before bounds validation. -/
def testFinalState (props : PipelineTestActionProps) (defaultInputArtifact : Artifact) :
    ActionState :=
  { configuration :=
      { ProjectName := props.project.projectName,
        PrimarySource := if (props.additionalInputArtifacts.getD []).length > 0
          then some (props.inputArtifact.getD defaultInputArtifact).name else none },
    inputArtifacts := props.inputArtifact.getD defaultInputArtifact ::
      props.additionalInputArtifacts.getD [],
    outputArtifacts := (testPrimaryOutput props).toList ++
      (props.additionalOutputArtifactNames.getD []).map Artifact.mk,
    outputArtifact := testPrimaryOutput props }

/-- An event is a bucket grant on the project role (read or read-write). -/
def isBucketGrantEvent : Event → Bool
  | Event.grantBucketRead _ => true
  | Event.grantBucketReadWrite _ => true
  | _ => false

/-- A sample project collaborator. -/
def sampleProject : ProjectRef :=
  { projectName := "MyProject",
    projectArn := "arn:aws:codebuild:us-east-1:1234:project/MyProject",
    role := "ProjectRole" }

/-- Sample build-action props: one explicit input, two additional inputs,
a named output and two additional output names. -/
def sampleBuildProps : PipelineBuildActionProps :=
  { additionalInputArtifacts := some [Artifact.mk "Extra1", Artifact.mk "Extra2"],
    additionalOutputArtifactNames := some ["Reports", "Logs"],
    inputArtifact := some (Artifact.mk "Source"),
    outputArtifactName := some "Built",
    project := sampleProject }

/-- Build-action props declaring six additional input artifacts. -/
def sixInputBuildProps : PipelineBuildActionProps :=
  { additionalInputArtifacts := some [Artifact.mk "A1", Artifact.mk "A2",
      Artifact.mk "A3", Artifact.mk "A4", Artifact.mk "A5", Artifact.mk "A6"],
    additionalOutputArtifactNames := none,
    inputArtifact := some (Artifact.mk "Source"),
    outputArtifactName := none,
    project := sampleProject }

/-- Sample test-action props with a primary output name. -/
def sampleTestProps : PipelineTestActionProps :=
  { additionalInputArtifacts := none,
    additionalOutputArtifactNames := none,
    inputArtifact := some (Artifact.mk "Source"),
    outputArtifactName := some "TestOut",
    project := sampleProject }

/-- Test-action props with no primary output name but one additional
output artifact name. -/
def additionalOnlyTestProps : PipelineTestActionProps :=
  { additionalInputArtifacts := none,
    additionalOutputArtifactNames := some ["Extra"],
    inputArtifact := some (Artifact.mk "Source"),
    outputArtifactName := none,
    project := sampleProject }

/-- The externally resolved upstream default input artifact used in samples. -/
def sampleDefaultInput : Artifact := Artifact.mk "UpstreamDefault"

/-- The auto-generated output artifact name used in samples. -/
def sampleAutoName : String := "AutoArtifact"

/-- Sample common props with a single additional input artifact. -/
def oneExtraInputProps : CommonCodeBuildActionProps :=
  { additionalInputArtifacts := some [Artifact.mk "Extra1"],
    additionalOutputArtifactNames := none }

/-- An action state with exactly one bound input artifact. -/
def oneInputAction : ActionState :=
  { configuration := { ProjectName := "MyProject", PrimarySource := none },
    inputArtifacts := [Artifact.mk "Source"],
    outputArtifacts := [],
    outputArtifact := none }

/-- The state `oneInputAction` reaches after
`handleAdditionalInputOutputArtifacts oneExtraInputProps`. -/
def oneInputActionBound : ActionState :=
  { configuration := { ProjectName := "MyProject", PrimarySource := some "Source" },
    inputArtifacts := [Artifact.mk "Source", Artifact.mk "Extra1"],
    outputArtifacts := [],
    outputArtifact := none }

/-- The fully bound state produced by constructing a build action from
`sampleBuildProps`. -/
def sampleBuildState : ActionState :=
  { configuration := { ProjectName := "MyProject", PrimarySource := some "Source" },
    inputArtifacts := [Artifact.mk "Source", Artifact.mk "Extra1", Artifact.mk "Extra2"],
    outputArtifacts := [Artifact.mk "Built", Artifact.mk "Reports", Artifact.mk "Logs"],
    outputArtifact := some (Artifact.mk "Built") }

/-- The fully bound state produced by constructing a test action from
`sampleTestProps`. -/
def sampleTestState : ActionState :=
  { configuration := { ProjectName := "MyProject", PrimarySource := none },
    inputArtifacts := [Artifact.mk "Source"],
    outputArtifacts := [Artifact.mk "TestOut"],
    outputArtifact := some (Artifact.mk "TestOut") }

/-- The fully bound state produced by constructing a test action from
`additionalOnlyTestProps`: no primary output, one additional output. -/
def additionalOnlyTestState : ActionState :=
  { configuration := { ProjectName := "MyProject", PrimarySource := none },
    inputArtifacts := [Artifact.mk "Source"],
    outputArtifacts := [Artifact.mk "Extra"],
    outputArtifact := none }

lemma foldl_addOutputArtifact (names : List String) (action : ActionState) :
    names.foldl addOutputArtifact action =
      { action with outputArtifacts := action.outputArtifacts ++ names.map Artifact.mk } := by
  induction names generalizing action with
  | nil => simp
  | cons n ns ih => simp [addOutputArtifact, ih]

lemma foldl_addInputArtifact (artifacts : List Artifact) (action : ActionState) :
    artifacts.foldl addInputArtifact action =
      { action with inputArtifacts := action.inputArtifacts ++ artifacts } := by
  induction artifacts generalizing action with
  | nil => simp
  | cons a as ih => simp [addInputArtifact, ih]

lemma handleAdditional_cons (props : CommonCodeBuildActionProps) (action : ActionState)
    (first : Artifact) (rest : List Artifact) (h : action.inputArtifacts = first :: rest) :
    handleAdditionalInputOutputArtifacts props action =
      some ({ action with
          configuration := if (props.additionalInputArtifacts.getD []).length > 0
            then { action.configuration with PrimarySource := some first.name }
            else action.configuration,
          inputArtifacts := action.inputArtifacts ++ props.additionalInputArtifacts.getD [],
          outputArtifacts := action.outputArtifacts ++
            (props.additionalOutputArtifactNames.getD []).map Artifact.mk },
        bindEventsOf props first.name) := by
  unfold handleAdditionalInputOutputArtifacts bindEventsOf
  by_cases hlen : (props.additionalInputArtifacts.getD []).length > 0
  · simp only [hlen, if_pos, h]
    simp [foldl_addOutputArtifact, foldl_addInputArtifact, h]
  · have hnil : props.additionalInputArtifacts.getD [] = [] :=
      List.eq_nil_of_length_eq_zero (Nat.eq_zero_of_not_pos hlen)
    simp [hnil, foldl_addOutputArtifact]

lemma handleAdditional_isSome_iff (props : CommonCodeBuildActionProps)
    (action : ActionState) :
    (handleAdditionalInputOutputArtifacts props action).isSome = true ↔
      (props.additionalInputArtifacts.getD [] = [] ∨ action.inputArtifacts ≠ []) := by
  unfold handleAdditionalInputOutputArtifacts
  by_cases hlen : (props.additionalInputArtifacts.getD []).length > 0
  · cases hia : action.inputArtifacts with
    | nil =>
      simp only [hlen, if_pos]
      simp [List.length_pos] at hlen
      simp [hlen]
    | cons first rest =>
      simp [hlen]
  · simp [List.length_pos] at hlen
    simp [hlen]

lemma bindEventsOf_binding (props : CommonCodeBuildActionProps) (firstName : String) :
    ∀ e ∈ bindEventsOf props firstName, isBindingEvent e = true := by
  intro e he
  unfold bindEventsOf at he
  rcases List.mem_append.mp he with h | h
  · rcases Decidable.em ((props.additionalInputArtifacts.getD []).length > 0) with hp | hp
    · rw [if_pos hp] at h
      rcases List.mem_cons.mp h with rfl | h
      · rfl
      · rcases List.mem_map.mp h with ⟨a, _, rfl⟩
        rfl
    · rw [if_neg hp] at h
      cases h
  · rcases List.mem_map.mp h with ⟨n, _, rfl⟩
    rfl

lemma pipelineBuildActionConstruct_eq (props : PipelineBuildActionProps)
    (defaultInputArtifact : Artifact) (autoGeneratedName : String) :
    pipelineBuildActionConstruct props defaultInputArtifact autoGeneratedName =
      (setCodeBuildNeededPermissions props.project true ++
        bindEventsOf props.toCommonCodeBuildActionProps
          (buildPrimaryInput props defaultInputArtifact).name,
      if validateArtifactBounds codeBuildArtifactBounds
          (buildFinalState props defaultInputArtifact autoGeneratedName).inputArtifacts.length
          (buildFinalState props defaultInputArtifact autoGeneratedName).outputArtifacts.length
      then Except.ok (buildFinalState props defaultInputArtifact autoGeneratedName)
      else Except.error ConstructError.boundsViolation) := by
  have h := handleAdditional_cons props.toCommonCodeBuildActionProps
    (buildActionBase props defaultInputArtifact autoGeneratedName)
    (buildPrimaryInput props defaultInputArtifact) []
    (by simp [buildActionBase, buildPrimaryInput])
  simp only [pipelineBuildActionConstruct, h]
  simp [buildFinalState, buildActionBase, buildPrimaryInput, buildPrimaryOutputName]
  split <;> by_cases hp : 0 < (props.additionalInputArtifacts.getD []).length <;> simp_all

lemma pipelineTestActionConstruct_eq (props : PipelineTestActionProps)
    (defaultInputArtifact : Artifact) :
    pipelineTestActionConstruct props defaultInputArtifact =
      (setCodeBuildNeededPermissions props.project (strTruthy props.outputArtifactName) ++
        bindEventsOf props.toCommonCodeBuildActionProps
          (props.inputArtifact.getD defaultInputArtifact).name,
      if validateArtifactBounds codeBuildArtifactBounds
          (testFinalState props defaultInputArtifact).inputArtifacts.length
          (testFinalState props defaultInputArtifact).outputArtifacts.length
      then Except.ok (testFinalState props defaultInputArtifact)
      else Except.error ConstructError.boundsViolation) := by
  have h := handleAdditional_cons props.toCommonCodeBuildActionProps
    (testActionBase props defaultInputArtifact)
    (props.inputArtifact.getD defaultInputArtifact) []
    (by simp [testActionBase])
  simp only [pipelineTestActionConstruct, h]
  simp [testFinalState, testActionBase, testPrimaryOutput]
  split <;> by_cases hp : 0 < (props.additionalInputArtifacts.getD []).length <;>
    simp_all <;> split <;> simp_all

lemma bindEventsOf_not_grant (props : CommonCodeBuildActionProps) (firstName : String) :
    ∀ e ∈ bindEventsOf props firstName, isGrantEvent e = false := by
  intro e he
  have hb := bindEventsOf_binding props firstName e he
  unfold isBindingEvent at hb
  cases hg : isGrantEvent e
  · rfl
  · rw [hg] at hb
    cases hb

lemma bucketGrant_isGrant (e : Event) :
    isBucketGrantEvent e = true → isGrantEvent e = true := by
  cases e <;> simp [isBucketGrantEvent, isGrantEvent]

lemma policyEvent_isGrant (e : Event) :
    isPipelinePolicyEvent e = true → isGrantEvent e = true := by
  cases e <;> simp [isPipelinePolicyEvent, isGrantEvent]

lemma bindEventsOf_filter_bucket (props : CommonCodeBuildActionProps) (firstName : String) :
    (bindEventsOf props firstName).filter isBucketGrantEvent = [] := by
  rw [List.filter_eq_nil_iff]
  intro e he hbucket
  have := bindEventsOf_not_grant props firstName e he
  rw [bucketGrant_isGrant e hbucket] at this
  cases this

lemma bindEventsOf_filter_policy (props : CommonCodeBuildActionProps) (firstName : String) :
    (bindEventsOf props firstName).filter isPipelinePolicyEvent = [] := by
  rw [List.filter_eq_nil_iff]
  intro e he hpol
  have := bindEventsOf_not_grant props firstName e he
  rw [policyEvent_isGrant e hpol] at this
  cases this

lemma setCodeBuild_filter_bucket (project : ProjectRef) (w : Bool) :
    (setCodeBuildNeededPermissions project w).filter isBucketGrantEvent =
      [if w then Event.grantBucketReadWrite project.role
       else Event.grantBucketRead project.role] := by
  cases w <;> simp [setCodeBuildNeededPermissions, isBucketGrantEvent]

lemma setCodeBuild_filter_policy (project : ProjectRef) (w : Bool) :
    (setCodeBuildNeededPermissions project w).filter isPipelinePolicyEvent =
      [Event.addToPolicy project.projectArn codeBuildPolicyActions] := by
  cases w <;> simp [setCodeBuildNeededPermissions, isPipelinePolicyEvent]

lemma build_trace_eq (bp : PipelineBuildActionProps) (d : Artifact) (auto : String) :
    (pipelineBuildActionConstruct bp d auto).1 =
      setCodeBuildNeededPermissions bp.project true ++
        bindEventsOf bp.toCommonCodeBuildActionProps (buildPrimaryInput bp d).name := by
  rw [pipelineBuildActionConstruct_eq]

lemma test_trace_eq (tp : PipelineTestActionProps) (d : Artifact) :
    (pipelineTestActionConstruct tp d).1 =
      setCodeBuildNeededPermissions tp.project (strTruthy tp.outputArtifactName) ++
        bindEventsOf tp.toCommonCodeBuildActionProps (tp.inputArtifact.getD d).name := by
  rw [pipelineTestActionConstruct_eq]

lemma build_ok_inv (bp : PipelineBuildActionProps) (d : Artifact) (auto : String)
    (a : ActionState) (h : (pipelineBuildActionConstruct bp d auto).2 = Except.ok a) :
    a = buildFinalState bp d auto := by
  rw [pipelineBuildActionConstruct_eq] at h
  simp only [] at h
  split at h
  · exact (Except.ok.inj h).symm
  · cases h

lemma test_ok_inv (tp : PipelineTestActionProps) (d : Artifact)
    (a : ActionState) (h : (pipelineTestActionConstruct tp d).2 = Except.ok a) :
    a = testFinalState tp d := by
  rw [pipelineTestActionConstruct_eq] at h
  simp only [] at h
  split at h
  · exact (Except.ok.inj h).symm
  · cases h

lemma setCodeBuild_all_grant (project : ProjectRef) (w : Bool) :
    ∀ e ∈ setCodeBuildNeededPermissions project w, isGrantEvent e = true := by
  intro e he
  cases w <;> simp [setCodeBuildNeededPermissions] at he <;>
    rcases he with rfl | rfl <;> rfl

/-- **C1 (counterexample).** The claim states that artifact binding
(including the appending of additional artifacts and the length validation)
completes before any permission grant is computed, and that with six
additional input artifacts against bounds {1,5,0,5} the BoundsViolation is
raised before any permission grant occurs.  The code does the opposite:
constructing a build action with six additional input artifacts produces a
trace that *opens* with the two permission-grant events, followed by the
artifact-binding events, and only then fails with the BoundsViolation. -/
theorem claim1_counterexample :
    (pipelineBuildActionConstruct sixInputBuildProps sampleDefaultInput sampleAutoName).2 =
      Except.error ConstructError.boundsViolation ∧
    (pipelineBuildActionConstruct sixInputBuildProps sampleDefaultInput sampleAutoName).1 =
      [Event.addToPolicy "arn:aws:codebuild:us-east-1:1234:project/MyProject"
        codeBuildPolicyActions,
       Event.grantBucketReadWrite "ProjectRole",
       Event.setPrimarySource "Source",
       Event.addInput (Artifact.mk "A1"), Event.addInput (Artifact.mk "A2"),
       Event.addInput (Artifact.mk "A3"), Event.addInput (Artifact.mk "A4"),
       Event.addInput (Artifact.mk "A5"), Event.addInput (Artifact.mk "A6")] ∧
    isGrantEvent ((pipelineBuildActionConstruct sixInputBuildProps sampleDefaultInput
      sampleAutoName).1.headD (Event.setPrimarySource "")) = true :=
  ⟨rfl, rfl, rfl⟩

/-- **C1 (amended).** For every action construction (build or test), the
permission grants (pipeline-role policy statement and project-role bucket
grant) are computed first, immediately after base-class construction, and
artifact binding — the appending of additional input and output artifacts —
happens only afterwards: the construction trace is the grant events
followed by only binding events.  In particular, when six additional input
artifacts are declared against bounds {1,5,0,5}, the BoundsViolation is
raised only after the permission grants have occurred. -/
theorem claim1_theorem (bp : PipelineBuildActionProps) (tp : PipelineTestActionProps)
    (d : Artifact) (auto : String) :
    (∃ binds, (pipelineBuildActionConstruct bp d auto).1 =
        setCodeBuildNeededPermissions bp.project true ++ binds ∧
        (∀ e ∈ binds, isBindingEvent e = true) ∧
        (∀ e ∈ setCodeBuildNeededPermissions bp.project true, isGrantEvent e = true)) ∧
    (∃ binds, (pipelineTestActionConstruct tp d).1 =
        setCodeBuildNeededPermissions tp.project (strTruthy tp.outputArtifactName) ++ binds ∧
        (∀ e ∈ binds, isBindingEvent e = true) ∧
        (∀ e ∈ setCodeBuildNeededPermissions tp.project (strTruthy tp.outputArtifactName),
          isGrantEvent e = true)) ∧
    ((bp.additionalInputArtifacts.getD []).length = 6 →
      (pipelineBuildActionConstruct bp d auto).2 = Except.error ConstructError.boundsViolation ∧
      (pipelineBuildActionConstruct bp d auto).1.filter isGrantEvent ≠ []) := by
  refine ⟨⟨bindEventsOf bp.toCommonCodeBuildActionProps (buildPrimaryInput bp d).name,
      build_trace_eq bp d auto, bindEventsOf_binding _ _, setCodeBuild_all_grant _ _⟩,
    ⟨bindEventsOf tp.toCommonCodeBuildActionProps (tp.inputArtifact.getD d).name,
      test_trace_eq tp d, bindEventsOf_binding _ _, setCodeBuild_all_grant _ _⟩, ?_⟩
  intro h6
  constructor
  · rw [pipelineBuildActionConstruct_eq]
    simp [buildFinalState, validateArtifactBounds, codeBuildArtifactBounds, h6]
  · rw [build_trace_eq]
    simp [List.filter_append, setCodeBuildNeededPermissions, isGrantEvent]

/-- **C1 (witness).** The amended theorem applied to the concrete
six-additional-input build action. -/
theorem claim1_witness :
    (sixInputBuildProps.additionalInputArtifacts.getD []).length = 6 ∧
    ((pipelineBuildActionConstruct sixInputBuildProps sampleDefaultInput sampleAutoName).2 =
        Except.error ConstructError.boundsViolation ∧
      (pipelineBuildActionConstruct sixInputBuildProps sampleDefaultInput
        sampleAutoName).1.filter isGrantEvent ≠ []) :=
  ⟨by decide, (claim1_theorem sixInputBuildProps sampleTestProps sampleDefaultInput
    sampleAutoName).2.2 (by decide)⟩

/-- **C2 (counterexample).** The claim states that the project role receives
read-write access iff the action declares an output artifact.  A test
action constructed with no primary output name but one additional output
artifact name does declare an output artifact (its finalized output list is
`[Extra]`), yet its trace contains only the read-only bucket grant, because
`needsWrite` is computed from `!!props.outputArtifactName` alone. -/
theorem claim2_counterexample :
    resultOutputs (pipelineTestActionConstruct additionalOnlyTestProps sampleDefaultInput).2 =
      [Artifact.mk "Extra"] ∧
    (pipelineTestActionConstruct additionalOnlyTestProps sampleDefaultInput).1 =
      [Event.addToPolicy "arn:aws:codebuild:us-east-1:1234:project/MyProject"
        codeBuildPolicyActions,
       Event.grantBucketRead "ProjectRole",
       Event.addOutput "Extra"] :=
  ⟨rfl, rfl⟩

/-- **C2 (amended).** For every action construction, exactly one bucket
grant is issued to the project role, so the two grants are mutually
exclusive per invocation; a build action always receives the read-write
grant, and a test action receives the read-write grant iff a (truthy)
primary output artifact name was supplied at construction — the choice is
driven by `outputArtifactName`, not by whether the finalized output list is
non-empty. -/
theorem claim2_theorem (bp : PipelineBuildActionProps) (tp : PipelineTestActionProps)
    (d : Artifact) (auto : String) :
    (pipelineBuildActionConstruct bp d auto).1.filter isBucketGrantEvent =
      [Event.grantBucketReadWrite bp.project.role] ∧
    (pipelineTestActionConstruct tp d).1.filter isBucketGrantEvent =
      [if strTruthy tp.outputArtifactName then Event.grantBucketReadWrite tp.project.role
       else Event.grantBucketRead tp.project.role] := by
  constructor
  · rw [build_trace_eq, List.filter_append, setCodeBuild_filter_bucket,
      bindEventsOf_filter_bucket]
    simp
  · rw [test_trace_eq, List.filter_append, setCodeBuild_filter_bucket,
      bindEventsOf_filter_bucket]
    simp

/-- **C3.** For every action construction that completes: if the list of
additional input artifacts is non-empty, the configuration's
`PrimarySource` equals the name of the first input artifact of the resolved
input list, and the additional inputs are appended after the primary one in
declaration order; if the list is empty, `PrimarySource` is not set. -/
theorem claim3_theorem (bp : PipelineBuildActionProps) (tp : PipelineTestActionProps)
    (d : Artifact) (auto : String) (a b : ActionState)
    (hb : (pipelineBuildActionConstruct bp d auto).2 = Except.ok a)
    (ht : (pipelineTestActionConstruct tp d).2 = Except.ok b) :
    ((bp.additionalInputArtifacts.getD []) ≠ [] →
      a.configuration.PrimarySource = a.inputArtifacts.head?.map Artifact.name ∧
      a.inputArtifacts = bp.inputArtifact.getD d :: bp.additionalInputArtifacts.getD []) ∧
    ((bp.additionalInputArtifacts.getD []) = [] →
      a.configuration.PrimarySource = none) ∧
    ((tp.additionalInputArtifacts.getD []) ≠ [] →
      b.configuration.PrimarySource = b.inputArtifacts.head?.map Artifact.name ∧
      b.inputArtifacts = tp.inputArtifact.getD d :: tp.additionalInputArtifacts.getD []) ∧
    ((tp.additionalInputArtifacts.getD []) = [] →
      b.configuration.PrimarySource = none) := by
  obtain rfl := build_ok_inv bp d auto a hb
  obtain rfl := test_ok_inv tp d b ht
  refine ⟨fun h => ?_, fun h => ?_, fun h => ?_, fun h => ?_⟩
  · have hpos : 0 < (bp.additionalInputArtifacts.getD []).length := List.length_pos.mpr h
    simp [buildFinalState, buildPrimaryInput, hpos]
  · simp [buildFinalState, buildPrimaryInput, h]
  · have hpos : 0 < (tp.additionalInputArtifacts.getD []).length := List.length_pos.mpr h
    simp [testFinalState, hpos]
  · simp [testFinalState, h]

/-- **C3 (witness).** The theorem applied to a concrete build action with
two additional inputs and a concrete test action with none. -/
theorem claim3_witness :
    ((pipelineBuildActionConstruct sampleBuildProps sampleDefaultInput sampleAutoName).2 =
      Except.ok sampleBuildState) ∧
    (sampleBuildState.configuration.PrimarySource =
        sampleBuildState.inputArtifacts.head?.map Artifact.name ∧
      sampleBuildState.inputArtifacts =
        sampleBuildProps.inputArtifact.getD sampleDefaultInput ::
          sampleBuildProps.additionalInputArtifacts.getD []) ∧
    sampleTestState.configuration.PrimarySource = none :=
  ⟨rfl,
   (claim3_theorem sampleBuildProps sampleTestProps sampleDefaultInput sampleAutoName
     sampleBuildState sampleTestState rfl rfl).1 (by decide),
   (claim3_theorem sampleBuildProps sampleTestProps sampleDefaultInput sampleAutoName
     sampleBuildState sampleTestState rfl rfl).2.2.2 (by decide)⟩

lemma ite_ok_or_bounds (c : Bool) (s : ActionState)
    (h : isOk (if c then Except.ok s
      else Except.error ConstructError.boundsViolation) = false) :
    (if c then Except.ok s else Except.error ConstructError.boundsViolation) =
      Except.error ConstructError.boundsViolation := by
  cases c <;> simp_all [isOk]

/-- **C4.** For all bounds and counts, validation succeeds iff
`minInputs ≤ nIn ≤ maxInputs` and `minOutputs ≤ nOut ≤ maxOutputs`; both
constructors succeed iff their resolved input and output counts pass that
validation against bounds `{1,5,0,5}`, and otherwise the construction
yields the fatal BoundsViolation. -/
theorem claim4_theorem :
    (∀ (bounds : ArtifactBounds) (nIn nOut : Nat),
      validateArtifactBounds bounds nIn nOut = true ↔
        (bounds.minInputs ≤ nIn ∧ nIn ≤ bounds.maxInputs ∧
         bounds.minOutputs ≤ nOut ∧ nOut ≤ bounds.maxOutputs)) ∧
    (∀ (bp : PipelineBuildActionProps) (d : Artifact) (auto : String),
      (isOk (pipelineBuildActionConstruct bp d auto).2 = true ↔
        validateArtifactBounds codeBuildArtifactBounds
          ((bp.additionalInputArtifacts.getD []).length + 1)
          ((bp.additionalOutputArtifactNames.getD []).length + 1) = true) ∧
      (isOk (pipelineBuildActionConstruct bp d auto).2 = false →
        (pipelineBuildActionConstruct bp d auto).2 =
          Except.error ConstructError.boundsViolation)) ∧
    (∀ (tp : PipelineTestActionProps) (d : Artifact),
      (isOk (pipelineTestActionConstruct tp d).2 = true ↔
        validateArtifactBounds codeBuildArtifactBounds
          ((tp.additionalInputArtifacts.getD []).length + 1)
          ((testPrimaryOutput tp).toList.length +
            (tp.additionalOutputArtifactNames.getD []).length) = true) ∧
      (isOk (pipelineTestActionConstruct tp d).2 = false →
        (pipelineTestActionConstruct tp d).2 =
          Except.error ConstructError.boundsViolation)) := by
  refine ⟨?_, ?_, ?_⟩
  · intro bounds nIn nOut
    simp [validateArtifactBounds, and_assoc]
  · intro bp d auto
    have harg1 : (buildFinalState bp d auto).inputArtifacts.length =
        (bp.additionalInputArtifacts.getD []).length + 1 := by
      simp [buildFinalState]
    have harg2 : (buildFinalState bp d auto).outputArtifacts.length =
        (bp.additionalOutputArtifactNames.getD []).length + 1 := by
      simp [buildFinalState]
    constructor
    · rw [pipelineBuildActionConstruct_eq]
      simp only [harg1, harg2]
      by_cases hv : validateArtifactBounds codeBuildArtifactBounds
          ((bp.additionalInputArtifacts.getD []).length + 1)
          ((bp.additionalOutputArtifactNames.getD []).length + 1) = true <;>
        simp [hv, isOk]
    · intro hnotok
      rw [pipelineBuildActionConstruct_eq] at hnotok ⊢
      simp only [] at hnotok ⊢
      exact ite_ok_or_bounds _ _ hnotok
  · intro tp d
    have harg1 : (testFinalState tp d).inputArtifacts.length =
        (tp.additionalInputArtifacts.getD []).length + 1 := by
      simp [testFinalState]
    have harg2 : (testFinalState tp d).outputArtifacts.length =
        (testPrimaryOutput tp).toList.length +
          (tp.additionalOutputArtifactNames.getD []).length := by
      simp [testFinalState]
    constructor
    · rw [pipelineTestActionConstruct_eq]
      simp only [harg1, harg2]
      by_cases hv : validateArtifactBounds codeBuildArtifactBounds
          ((tp.additionalInputArtifacts.getD []).length + 1)
          ((testPrimaryOutput tp).toList.length +
            (tp.additionalOutputArtifactNames.getD []).length) = true <;>
        simp [hv, isOk]
    · intro hnotok
      rw [pipelineTestActionConstruct_eq] at hnotok ⊢
      simp only [] at hnotok ⊢
      exact ite_ok_or_bounds _ _ hnotok

/-- **C4 (witness).** Validation accepts counts (3,3) against bounds
{1,5,0,5}, and the six-additional-input build action fails with the
BoundsViolation. -/
theorem claim4_witness :
    validateArtifactBounds codeBuildArtifactBounds 3 3 = true ∧
    (pipelineBuildActionConstruct sixInputBuildProps sampleDefaultInput sampleAutoName).2 =
      Except.error ConstructError.boundsViolation :=
  ⟨(claim4_theorem.1 codeBuildArtifactBounds 3 3).mpr
     ⟨by decide, by decide, by decide, by decide⟩,
   (claim4_theorem.2.1 sixInputBuildProps sampleDefaultInput sampleAutoName).2 (by decide)⟩

/-- **C5.** `findOutputArtifact` returns an artifact of the list whose name
equals the given name by exact string equality whenever one exists, and for
any name absent from the list — including every name when the list is
empty — returns the error carrying the missing name. -/
theorem claim5_theorem (artifacts : List Artifact) (name : String) :
    (∀ a, findOutputArtifact artifacts name = Except.ok a →
      a ∈ artifacts ∧ a.name = name) ∧
    ((∃ a ∈ artifacts, a.name = name) →
      ∃ a, findOutputArtifact artifacts name = Except.ok a ∧ a.name = name) ∧
    ((∀ a ∈ artifacts, a.name ≠ name) →
      findOutputArtifact artifacts name =
        Except.error ("Could not find output artifact with name " ++ name)) := by
  unfold findOutputArtifact
  cases hf : artifacts.find? (fun artifact => artifact.name == name) with
  | none =>
    refine ⟨fun a ha => ?_, ?_, fun _ => rfl⟩
    · cases ha
    · rintro ⟨a, hmem, hname⟩
      exfalso
      have := List.find?_eq_none.mp hf a hmem
      simp [hname] at this
  | some r =>
    have hmem := List.mem_of_find?_eq_some hf
    have hname : r.name = name := by
      have := List.find?_some hf
      simpa using this
    refine ⟨fun a ha => ?_, fun _ => ⟨r, rfl, hname⟩, fun hall => ?_⟩
    · obtain rfl := Except.ok.inj ha
      exact ⟨hmem, hname⟩
    · exact absurd hname (hall r hmem)

/-- **C5 (witness).** Lookup succeeds on a present name and fails with the
error carrying the missing name on an absent one. -/
theorem claim5_witness :
    (∃ a, findOutputArtifact [Artifact.mk "Reports", Artifact.mk "Logs"] "Logs" =
      Except.ok a ∧ a.name = "Logs") ∧
    findOutputArtifact [Artifact.mk "Reports", Artifact.mk "Logs"] "Missing" =
      Except.error ("Could not find output artifact with name " ++ "Missing") :=
  ⟨(claim5_theorem [Artifact.mk "Reports", Artifact.mk "Logs"] "Logs").2.1
     ⟨Artifact.mk "Logs", by decide, rfl⟩,
   (claim5_theorem [Artifact.mk "Reports", Artifact.mk "Logs"] "Missing").2.2
     (by decide)⟩

/-- **C6.** `additionalOutputArtifacts` returns, for a build action (whose
output list always has the primary at index 0), all outputs except index 0,
and for a test action, all outputs when no (truthy) primary output name was
declared at construction, else all outputs except index 0; in both cases
the result is exactly the artifacts made from the declared additional
output names, so the slicing depends on whether a primary output was
supplied, not merely on list length. -/
theorem claim6_theorem (bp : PipelineBuildActionProps) (tp : PipelineTestActionProps)
    (d : Artifact) (auto : String) (a b : ActionState)
    (hb : (pipelineBuildActionConstruct bp d auto).2 = Except.ok a)
    (ht : (pipelineTestActionConstruct tp d).2 = Except.ok b) :
    (PipelineBuildAction.additionalOutputArtifacts a = a.outputArtifacts.drop 1 ∧
     PipelineBuildAction.additionalOutputArtifacts a =
       (bp.additionalOutputArtifactNames.getD []).map Artifact.mk) ∧
    (PipelineTestAction.additionalOutputArtifacts b =
       (tp.additionalOutputArtifactNames.getD []).map Artifact.mk ∧
     (strTruthy tp.outputArtifactName = false →
       b.outputArtifact = none ∧
       PipelineTestAction.additionalOutputArtifacts b = b.outputArtifacts) ∧
     (strTruthy tp.outputArtifactName = true →
       b.outputArtifact.isSome = true ∧
       PipelineTestAction.additionalOutputArtifacts b = b.outputArtifacts.drop 1)) := by
  obtain rfl := build_ok_inv bp d auto a hb
  obtain rfl := test_ok_inv tp d b ht
  refine ⟨⟨rfl, ?_⟩, ?_, fun hs => ?_, fun hs => ?_⟩
  · simp [PipelineBuildAction.additionalOutputArtifacts, buildFinalState]
  · cases hs : strTruthy tp.outputArtifactName <;>
      simp [PipelineTestAction.additionalOutputArtifacts, testFinalState,
        testPrimaryOutput, hs]
  · simp [PipelineTestAction.additionalOutputArtifacts, testFinalState,
      testPrimaryOutput, hs]
  · simp [PipelineTestAction.additionalOutputArtifacts, testFinalState,
      testPrimaryOutput, hs]

/-- **C6 (witness).** The theorem applied to a concrete build action with
additional outputs `[Reports, Logs]` and a concrete test action with no
primary output and additional output `[Extra]`. -/
theorem claim6_witness :
    ((pipelineBuildActionConstruct sampleBuildProps sampleDefaultInput sampleAutoName).2 =
      Except.ok sampleBuildState) ∧
    ((pipelineTestActionConstruct additionalOnlyTestProps sampleDefaultInput).2 =
      Except.ok additionalOnlyTestState) ∧
    PipelineBuildAction.additionalOutputArtifacts sampleBuildState =
      [Artifact.mk "Reports", Artifact.mk "Logs"] ∧
    (additionalOnlyTestState.outputArtifact = none ∧
     PipelineTestAction.additionalOutputArtifacts additionalOnlyTestState =
       additionalOnlyTestState.outputArtifacts) :=
  ⟨rfl, rfl,
   (claim6_theorem sampleBuildProps additionalOnlyTestProps sampleDefaultInput
     sampleAutoName sampleBuildState additionalOnlyTestState rfl rfl).1.2,
   (claim6_theorem sampleBuildProps additionalOnlyTestProps sampleDefaultInput
     sampleAutoName sampleBuildState additionalOnlyTestState rfl rfl).2.2.1 (by decide)⟩

/-- **C7.** For every action construction, regardless of the bucket-grant
choice, the pipeline role's policy receives exactly one appended statement,
granting `codebuild:BatchGetBuilds`, `codebuild:StartBuild` and
`codebuild:StopBuild`, scoped exactly to the given project ARN. -/
theorem claim7_theorem (bp : PipelineBuildActionProps) (tp : PipelineTestActionProps)
    (d : Artifact) (auto : String) :
    (pipelineBuildActionConstruct bp d auto).1.filter isPipelinePolicyEvent =
      [Event.addToPolicy bp.project.projectArn codeBuildPolicyActions] ∧
    (pipelineTestActionConstruct tp d).1.filter isPipelinePolicyEvent =
      [Event.addToPolicy tp.project.projectArn codeBuildPolicyActions] := by
  constructor
  · rw [build_trace_eq, List.filter_append, setCodeBuild_filter_policy,
      bindEventsOf_filter_policy]
    simp
  · rw [test_trace_eq, List.filter_append, setCodeBuild_filter_policy,
      bindEventsOf_filter_policy]
    simp

/-- **C8.** For every action construction that completes, the finalized
output list is stably ordered: the primary output (always present for a
build action, present for a test action iff a truthy name was supplied) is
at index 0, and the additional outputs follow in declaration order. -/
theorem claim8_theorem (bp : PipelineBuildActionProps) (tp : PipelineTestActionProps)
    (d : Artifact) (auto : String) (a b : ActionState)
    (hb : (pipelineBuildActionConstruct bp d auto).2 = Except.ok a)
    (ht : (pipelineTestActionConstruct tp d).2 = Except.ok b) :
    (a.outputArtifacts =
      Artifact.mk (buildPrimaryOutputName bp auto) ::
        (bp.additionalOutputArtifactNames.getD []).map Artifact.mk) ∧
    (b.outputArtifacts = (testPrimaryOutput tp).toList ++
      (tp.additionalOutputArtifactNames.getD []).map Artifact.mk) ∧
    (strTruthy tp.outputArtifactName = true →
      b.outputArtifacts.head? =
        some (Artifact.mk (tp.outputArtifactName.getD ""))) := by
  obtain rfl := build_ok_inv bp d auto a hb
  obtain rfl := test_ok_inv tp d b ht
  refine ⟨?_, ?_, fun hs => ?_⟩
  · simp [buildFinalState]
  · simp [testFinalState]
  · simp [testFinalState, testPrimaryOutput, hs]

/-- **C8 (witness).** The theorem applied to concrete build and test
actions: primary first, additional outputs after it in declaration order. -/
theorem claim8_witness :
    ((pipelineBuildActionConstruct sampleBuildProps sampleDefaultInput sampleAutoName).2 =
      Except.ok sampleBuildState) ∧
    ((pipelineTestActionConstruct sampleTestProps sampleDefaultInput).2 =
      Except.ok sampleTestState) ∧
    sampleBuildState.outputArtifacts =
      Artifact.mk (buildPrimaryOutputName sampleBuildProps sampleAutoName) ::
        (sampleBuildProps.additionalOutputArtifactNames.getD []).map Artifact.mk ∧
    sampleTestState.outputArtifacts.head? = some (Artifact.mk "TestOut") :=
  ⟨rfl, rfl,
   (claim8_theorem sampleBuildProps sampleTestProps sampleDefaultInput sampleAutoName
     sampleBuildState sampleTestState rfl rfl).1,
   (claim8_theorem sampleBuildProps sampleTestProps sampleDefaultInput sampleAutoName
     sampleBuildState sampleTestState rfl rfl).2.2 (by decide)⟩

/-- **C9.** `handleAdditionalInputOutputArtifacts` reads the name of the
input artifact at index 0 to set `PrimarySource` whenever the
additional-input list is non-empty; the access is well defined exactly when
at least one input artifact is already bound (or no additional inputs are
declared), and with zero bound inputs and a non-empty additional-input list
the first-element access is out of bounds. -/
theorem claim9_theorem (props : CommonCodeBuildActionProps) (action : ActionState) :
    ((handleAdditionalInputOutputArtifacts props action).isSome = true ↔
      (props.additionalInputArtifacts.getD [] = [] ∨ action.inputArtifacts ≠ [])) ∧
    (∀ first rest, action.inputArtifacts = first :: rest →
      (props.additionalInputArtifacts.getD []) ≠ [] →
      ∀ r evs, handleAdditionalInputOutputArtifacts props action = some (r, evs) →
        r.configuration.PrimarySource = some first.name) := by
  refine ⟨handleAdditional_isSome_iff props action, ?_⟩
  intro first rest hcons hne r evs hr
  rw [handleAdditional_cons props action first rest hcons] at hr
  obtain ⟨hstate, -⟩ := Prod.mk.inj (Option.some.inj hr)
  have hpos : 0 < (props.additionalInputArtifacts.getD []).length :=
    List.length_pos.mpr hne
  rw [← hstate]
  simp [hpos]

/-- **C9 (witness).** With one bound input artifact named `Source` and one
additional input artifact, binding succeeds and `PrimarySource` is set to
`Source`; with zero bound inputs the access is out of bounds. -/
theorem claim9_witness :
    (handleAdditionalInputOutputArtifacts oneExtraInputProps oneInputAction =
      some (oneInputActionBound,
        [Event.setPrimarySource "Source", Event.addInput (Artifact.mk "Extra1")])) ∧
    oneInputActionBound.configuration.PrimarySource = some "Source" ∧
    (handleAdditionalInputOutputArtifacts oneExtraInputProps
      { oneInputAction with inputArtifacts := [] }).isSome = false :=
  ⟨by decide,
   (claim9_theorem oneExtraInputProps oneInputAction).2 (Artifact.mk "Source") []
     rfl (by decide) oneInputActionBound
     [Event.setPrimarySource "Source", Event.addInput (Artifact.mk "Extra1")]
     (by decide),
   by decide⟩

/-- **C10.** `additionalOutputArtifact(name)` of a build action searches
only the non-primary outputs: for any constructed build action whose output
artifact names are pairwise distinct, calling it with the name of the
primary output (the artifact at index 0) raises the not-found error even
though an artifact with that exact name is a member of the action's output
list. -/
theorem claim10_theorem (bp : PipelineBuildActionProps) (d : Artifact) (auto : String)
    (a : ActionState)
    (h : (pipelineBuildActionConstruct bp d auto).2 = Except.ok a)
    (hnodup : (a.outputArtifacts.map Artifact.name).Nodup) :
    ∀ prim, a.outputArtifacts.head? = some prim →
      prim ∈ a.outputArtifacts ∧
      PipelineBuildAction.additionalOutputArtifact a prim.name =
        Except.error ("Could not find output artifact with name " ++ prim.name) := by
  intro prim hhead
  obtain ⟨rest, hout⟩ : ∃ rest, a.outputArtifacts = prim :: rest := by
    cases ho : a.outputArtifacts with
    | nil => rw [ho] at hhead; cases hhead
    | cons x xs =>
      rw [ho] at hhead
      exact ⟨xs, by rw [Option.some.inj hhead]⟩
  constructor
  · rw [hout]; exact List.mem_cons_self prim rest
  · rw [hout] at hnodup
    simp only [List.map_cons, List.nodup_cons] at hnodup
    have hnotin : prim.name ∉ rest.map Artifact.name := hnodup.1
    unfold PipelineBuildAction.additionalOutputArtifact
    unfold PipelineBuildAction.additionalOutputArtifacts
    rw [hout]
    simp only [List.drop_one, List.tail_cons]
    unfold findOutputArtifact
    have hfind : rest.find? (fun artifact => artifact.name == prim.name) = none := by
      rw [List.find?_eq_none]
      intro x hx
      simp only [beq_iff_eq]
      intro heq
      exact hnotin (heq ▸ List.mem_map_of_mem Artifact.name hx)
    rw [hfind]

/-- **C10 (witness).** The concrete build action with outputs
`[Built, Reports, Logs]`: looking up `Built` among the additional outputs
fails even though `Built` is in the output list at index 0. -/
theorem claim10_witness :
    ((pipelineBuildActionConstruct sampleBuildProps sampleDefaultInput sampleAutoName).2 =
      Except.ok sampleBuildState) ∧
    (sampleBuildState.outputArtifacts.map Artifact.name).Nodup ∧
    sampleBuildState.outputArtifacts.head? = some (Artifact.mk "Built") ∧
    (Artifact.mk "Built" ∈ sampleBuildState.outputArtifacts ∧
     PipelineBuildAction.additionalOutputArtifact sampleBuildState "Built" =
       Except.error ("Could not find output artifact with name " ++ "Built")) :=
  ⟨rfl, by decide, rfl,
   claim10_theorem sampleBuildProps sampleDefaultInput sampleAutoName sampleBuildState
     rfl (by decide) (Artifact.mk "Built") rfl⟩
